import Mathlib

/-!
Verification development for the fishing-prediction system.

Shallow embedding of the core of the repository:
- `src/ml/models.py` (AjiPredictor: fit split, predict clipping, save/load,
  retention cleanup),
- `src/api/predict.py` (FishingPredictor.predict_aji),
- `src/api/visitor_analysis.py` (VisitorAnalyzer: weather mapping, cell
  table, missing-cell estimation, point estimate),
- `src/api/historical.py` (load_fishing_data, get_historical_data,
  generate_summary),
- `src/ml/feature_engineering.py` (weather encoding),
- `src/ml/data_loader.py` (per-row preprocessing).

Machine reals (Python floats) are embedded as exact rationals; Python
`round(x, 1)` (banker's rounding) is `round1`; Python `int()` truncation is
`pyTrunc`.  Opaque regressor objects are embedded as abstract functions from
a feature matrix to a prediction vector.  File-system timestamps are
embedded as naturals in a single order-preserving key space (only their
ordering is ever used by the code).
-/

namespace Fishing

/-- Python `round` to the nearest integer, ties to even (banker's rounding). -/
def pyRound (q : ℚ) : ℤ :=
  let f : ℤ := ⌊q⌋
  if q - f < 1/2 then f
  else if (1:ℚ)/2 < q - f then f + 1
  else if Even f then f else f + 1

/-- Python `round(x, 1)`: round to one decimal digit, ties to even. -/
def round1 (q : ℚ) : ℚ := (pyRound (10 * q) : ℚ) / 10

/-- Python `int()` applied to a float: truncation toward zero. -/
def pyTrunc (q : ℚ) : ℤ := if 0 ≤ q then ⌊q⌋ else -⌊-q⌋

/-- Mean of a list of rationals (`np.mean` / `pandas.Series.mean`). -/
def qmean (l : List ℚ) : ℚ := l.sum / (l.length : ℚ)

-- ===========================================================================
-- Model Manager: src/ml/models.py, AjiPredictor
-- ===========================================================================

/-- The trained regressor object (RandomForest / XGBoost) is opaque to this
core; it is embedded as an abstract function from a feature matrix to a raw
prediction vector.  The clipping done by `AjiPredictor.predict` is applied
outside of it, exactly as in the source. -/
abbrev RModel := List (List ℚ) → List ℚ

/-- The mutable state of an `AjiPredictor` instance (`models.py` lines
37-49): the regressor, the model-kind tag, the stored feature schema, the
trained flag and the training history (kept abstract as a tag since no
claim inspects its numeric content). -/
structure PState where
  model : RModel
  model_type : String
  feature_columns : List String
  is_trained : Bool
  training_history : String

/-- Prediction input: `predict` accepts either a raw `np.array` or a
`pd.DataFrame` carrying column names (`models.py` lines 222-226). -/
inductive PInput where
  | raw (m : List (List ℚ))
  | framed (cols : List String) (m : List (List ℚ))

/-- Left-to-right index of a name in a list (`list.index`). -/
def colIndex (cols : List String) (c : String) : Option ℕ :=
  cols.findIdx? (· = c)

/-- `X[self.feature_columns]`: select the stored columns, in stored order,
from a named frame; fails when a stored column is absent. -/
def reorderColumns (cols : List String) (m : List (List ℚ))
    (want : List String) : Option (List (List ℚ)) :=
  (want.mapM (colIndex cols)).map (fun idxs =>
    m.map (fun row => idxs.map (fun i => row.getD i 0)))

/-- `AjiPredictor.predict` (`models.py` lines 209-233): refuse when not
trained, reorder named columns to the stored schema, run the regressor and
clip every output to be nonnegative (`np.maximum(predictions, 0)`). -/
def predict (s : PState) (X : PInput) : Except String (List ℚ) :=
  if s.is_trained = false then
    Except.error "model is not trained"
  else
    match X with
    | PInput.raw m => Except.ok ((s.model m).map (fun v => max v 0))
    | PInput.framed cols m =>
        if cols = s.feature_columns then
          Except.ok ((s.model m).map (fun v => max v 0))
        else
          match reorderColumns cols m s.feature_columns with
          | some m2 => Except.ok ((s.model m2).map (fun v => max v 0))
          | none => Except.error "missing feature column"

/-- `FishingPredictor.predict_aji` final cast (`src/api/predict.py` lines
200-204): `predicted_catch = max(0, int(round(prediction)))` applied to the
raw regressor output on the single-row feature vector. -/
def predict_aji_catch (model : RModel) (features : List ℚ) : ℤ :=
  max 0 (pyRound ((model [features]).getD 0 0))

/-- `AjiPredictor.fit` train/validation split (`models.py` lines 104-109):
`train_size = int(len(X) * (1 - validation_split))`, then
`X.iloc[:train_size]` / `X.iloc[train_size:]` and likewise for `y` —
a chronological prefix/suffix split with no shuffling. -/
def fitSplit (X : List (List ℚ)) (y : List ℚ) (validation_split : ℚ) :
    (List (List ℚ)) × (List (List ℚ)) × (List ℚ) × (List ℚ) :=
  let train_size : ℕ := (pyTrunc ((X.length : ℚ) * (1 - validation_split))).toNat
  (X.take train_size, X.drop train_size, y.take train_size, y.drop train_size)

-- ===========================================================================
-- Retention cleanup: src/ml/models.py, AjiPredictor.cleanup_old_models
-- ===========================================================================

/-- A persisted artifact file as seen by `cleanup_old_models`: its base
name, plus the two file-system time attributes.  Instants are embedded as
naturals in one order-preserving key space (the code only compares them).
`ctimeKey` is what `os.path.getctime` returns, `mtimeKey` what
`os.path.getmtime` returns. -/
structure PFile where
  name : String
  ctimeKey : ℕ
  mtimeKey : ℕ
  deriving DecidableEq, Repr

/-- Python `str.split(sep)` with a one-character separator, over character
lists: `"a_b" ↦ ["a", "b"]`, `"" ↦ [""]`, `"_" ↦ ["", ""]`. -/
def splitOnChar (sep : Char) : List Char → List (List Char)
  | [] => [[]]
  | c :: rest =>
      if c = sep then [] :: splitOnChar sep rest
      else
        match splitOnChar sep rest with
        | [] => [[c]]
        | g :: gs => (c :: g) :: gs

/-- `filename.replace(".pkl", "")`: delete every (left-to-right,
non-overlapping) occurrence of the four characters `.pkl`. -/
def stripPkl : List Char → List Char
  | '.' :: 'p' :: 'k' :: 'l' :: rest => stripPkl rest
  | c :: rest => c :: stripPkl rest
  | [] => []

/-- Digits interpreted as a decimal natural (helper for the parsers; only
called on all-digit strings). -/
def digitsToNat (cs : List Char) : ℕ :=
  cs.foldl (fun acc c => acc * 10 + (c.toNat - 48)) 0

/-- `cs` is nonempty and consists of decimal digits only. -/
def allDigits (cs : List Char) : Bool :=
  !cs.isEmpty && cs.all (·.isDigit)

def isLeapYear (y : ℕ) : Bool :=
  (y % 4 = 0 && y % 100 ≠ 0) || y % 400 = 0

def daysInMonth (y m : ℕ) : ℕ :=
  if m = 2 then (if isLeapYear y then 29 else 28)
  else if m = 4 ∨ m = 6 ∨ m = 9 ∨ m = 11 then 30
  else 31

/-- The `extract_datetime` filename parse (`models.py` lines 328-336):
join the last two `_`-separated fields of the base name, strip `.pkl`, and
parse as `%Y%m%d_%H%M%S` (with `strptime`'s range validation).  A parsed
instant is returned as its `YYYYMMDDHHMMSS` numeral, which orders exactly
as the corresponding `datetime` does. -/
def parseTsName (filename : String) : Option ℕ :=
  let parts := splitOnChar '_' filename.toList
  if parts.length < 2 then none
  else
    let dpart := parts.getD (parts.length - 2) []
    let tpart := stripPkl (parts.getD (parts.length - 1) [])
    if allDigits dpart ∧ dpart.length = 8 ∧ allDigits tpart ∧ tpart.length = 6 then
      let y := digitsToNat (dpart.take 4)
      let mo := digitsToNat ((dpart.drop 4).take 2)
      let da := digitsToNat (dpart.drop 6)
      let h := digitsToNat (tpart.take 2)
      let mi := digitsToNat ((tpart.drop 2).take 2)
      let se := digitsToNat (tpart.drop 4)
      if 1 ≤ mo ∧ mo ≤ 12 ∧ 1 ≤ da ∧ da ≤ daysInMonth y mo ∧
          h ≤ 23 ∧ mi ≤ 59 ∧ se ≤ 59 then
        some (((((y * 100 + mo) * 100 + da) * 100 + h) * 100 + mi) * 100 + se)
      else none
    else none

/-- The sort key used by `cleanup_old_models`: the timestamp embedded in the
filename, falling back to `os.path.getctime` when the parse fails
(`models.py` lines 328-336). -/
def extractKey (f : PFile) : ℕ :=
  (parseTsName f.name).getD f.ctimeKey

/-- Outcome of a cleanup run: the files deleted and the files kept (the
files remaining in the directory afterwards). -/
structure CleanupResult where
  deleted : List PFile
  kept : List PFile
  deriving Repr

/-- `AjiPredictor.cleanup_old_models` (`models.py` lines 306-358) on the
glob result for the active model kind: keep everything when at most
`keep_count` files exist; otherwise sort by `extractKey` descending (a
stable comparison sort, as Python's) and delete everything beyond the
newest `keep_count`. -/
def cleanup_old_models (files : List PFile) (keep_count : ℕ) : CleanupResult :=
  if files.length ≤ keep_count then
    { deleted := [], kept := files }
  else
    { deleted := (files.insertionSort (fun a b => extractKey b ≤ extractKey a)).drop keep_count
      kept := (files.insertionSort (fun a b => extractKey b ≤ extractKey a)).take keep_count }

/-- Modelled from the spec (claim comparison only): the cleanup the claim
describes, whose unparsable-name fallback is the file MODIFICATION time
(`os.path.getmtime`) instead of the creation time the code uses. -/
def extractKeyMtimeSpec (f : PFile) : ℕ :=
  (parseTsName f.name).getD f.mtimeKey

/-- Modelled from the spec (claim comparison only): retention with the
modification-time fallback key. -/
def cleanup_old_models_mtimeSpec (files : List PFile) (keep_count : ℕ) :
    CleanupResult :=
  if files.length ≤ keep_count then
    { deleted := [], kept := files }
  else
    { deleted := (files.insertionSort
        (fun a b => extractKeyMtimeSpec b ≤ extractKeyMtimeSpec a)).drop keep_count
      kept := (files.insertionSort
        (fun a b => extractKeyMtimeSpec b ≤ extractKeyMtimeSpec a)).take keep_count }

-- ===========================================================================
-- Persistence: src/ml/models.py, save_model / load_model
-- ===========================================================================

/-- The serialized bundle written by `save_model` (`models.py` lines
380-386): regressor object, model-kind tag, feature schema, training
history and the trained flag. -/
structure Artifact where
  model : RModel
  model_type : String
  feature_columns : List String
  training_history : String
  is_trained : Bool

/-- The `model_data` dict that `save_model` serializes. -/
def makeArtifact (s : PState) : Artifact :=
  { model := s.model
    model_type := s.model_type
    feature_columns := s.feature_columns
    training_history := s.training_history
    is_trained := s.is_trained }

/-- `AjiPredictor.save_model` (`models.py` lines 360-401), with the model
directory contents passed explicitly.  An untrained model raises before
anything is written (`if not self.is_trained: raise ValueError`), so on
that path the directory is returned unchanged and no cleanup runs.  On
success the artifact file `aji_{model_type}_{timestamp}.pkl` is written and
`cleanup_old_models(keep_count=2)` runs over the files of this model kind. -/
def save_model (s : PState) (dir : List PFile) (timestamp : String)
    (now : ℕ) : (List PFile) × Except String (String × Artifact) :=
  if s.is_trained = false then
    (dir, Except.error "cannot save an untrained model")
  else
    let fname := "aji_" ++ s.model_type ++ "_" ++ timestamp ++ ".pkl"
    let newFile : PFile := { name := fname, ctimeKey := now, mtimeKey := now }
    let dir1 := dir ++ [newFile]
    let mine := dir1.filter (fun f =>
      f.name.startsWith ("aji_" ++ s.model_type ++ "_") && f.name.endsWith ".pkl")
    let others := dir1.filter (fun f =>
      !(f.name.startsWith ("aji_" ++ s.model_type ++ "_") && f.name.endsWith ".pkl"))
    let r := cleanup_old_models mine 2
    (others ++ r.kept, Except.ok (fname, makeArtifact s))

/-- `AjiPredictor.load_model` success path (`models.py` lines 464-470):
every serialized field is copied back into the instance. -/
def load_model (s : PState) (a : Artifact) : PState :=
  { s with
    model := a.model
    model_type := a.model_type
    feature_columns := a.feature_columns
    training_history := a.training_history
    is_trained := a.is_trained }

-- ===========================================================================
-- Visitor Statistics Engine: src/api/visitor_analysis.py, VisitorAnalyzer
-- ===========================================================================

/-- The four canonical weather categories. -/
inductive WeatherE where
  | sunny | cloudy | rainy | snowy
  deriving DecidableEq, Repr

/-- The seven weekday names used by `weekday_names`. -/
inductive WeekdayE where
  | monday | tuesday | wednesday | thursday | friday | saturday | sunday
  deriving DecidableEq, Repr

/-- The iteration order `weather_types` of `calculate_visitor_averages`
(`visitor_analysis.py` line 283). -/
def weatherTypes : List WeatherE :=
  [WeatherE.sunny, WeatherE.cloudy, WeatherE.rainy, WeatherE.snowy]

/-- The iteration order `weekday_types` of `calculate_visitor_averages`
(`visitor_analysis.py` line 284). -/
def weekdayTypes : List WeekdayE :=
  [WeekdayE.monday, WeekdayE.tuesday, WeekdayE.wednesday, WeekdayE.thursday,
   WeekdayE.friday, WeekdayE.saturday, WeekdayE.sunday]

/-- The 28 weather-major (weather, weekday) pairs, in the exact nested loop
order of `calculate_visitor_averages`. -/
def allPairs : List (WeatherE × WeekdayE) :=
  weatherTypes.flatMap (fun w => weekdayTypes.map (fun d => (w, d)))

/-- The canonical English name of a weather category (the key fragments
`f"{weather}_{weekday}"` use these names). -/
def weatherName : WeatherE → String
  | WeatherE.sunny => "sunny"
  | WeatherE.cloudy => "cloudy"
  | WeatherE.rainy => "rainy"
  | WeatherE.snowy => "snowy"

/-- `VisitorAnalyzer.weather_mapping` (`visitor_analysis.py` lines 44-67),
verbatim: the fixed many-to-one lookup from Japanese free-text weather
phrases to canonical category names. -/
def weather_mapping : List (String × String) :=
  [("晴れ", "sunny"),
   ("曇り", "cloudy"),
   ("雨", "rainy"),
   ("雪", "snowy"),
   ("快晴", "sunny"),
   ("薄曇り", "cloudy"),
   ("小雨", "rainy"),
   ("大雨", "rainy"),
   ("暴風雨", "rainy"),
   ("曇り時々晴れ", "cloudy"),
   ("晴れのち曇り", "sunny"),
   ("曇りのち雨", "rainy"),
   ("雨のち晴れ", "sunny"),
   ("雨のち曇り", "cloudy"),
   ("曇りのち晴れ一時雨", "cloudy"),
   ("曇りのち晴れ", "sunny"),
   ("雨一時曇り", "rainy"),
   ("雨時々曇り", "rainy"),
   ("雨のち曇り時々晴れ", "cloudy"),
   ("晴れのち雨", "rainy"),
   ("曇り時々雨", "rainy")]

/-- `_clean_data`'s weather normalization (`visitor_analysis.py` lines
217-231): `df["天気"].map(self.weather_mapping)` followed by
`fillna("cloudy")` for unmapped phrases. -/
def normalizeWeatherVA (raw : String) : String :=
  (weather_mapping.lookup raw).getD "cloudy"

/-- A record after `_clean_data`: a weekday derived from the parsed date, a
mapped weather category, and a visitor count already validated to lie in
[0, 2000]. -/
structure VRec where
  weekday : WeekdayE
  weather : WeatherE
  visitors : ℚ
  deriving DecidableEq, Repr

/-- One cell of the 28-entry table built by `calculate_visitor_averages`.
The source also stores `std` (the sample standard deviation rounded to one
digit, or 0 for `n ≤ 1` / estimated cells); no claim concerns it and its
square root is not rational, so it is not carried here.  Observed cells in
the source carry no `estimated` key, which reads as `estimated = false`. -/
structure VCell where
  average : ℚ
  count : ℕ
  vmin : ℤ
  vmax : ℤ
  estimated : Bool
  deriving DecidableEq, Repr

/-- Minimum of a visitor list (pandas `.min()`; only used nonempty). -/
def qlistMin (l : List ℚ) : ℚ := l.foldr min (l.getD 0 0)

/-- Maximum of a visitor list (pandas `.max()`; only used nonempty). -/
def qlistMax (l : List ℚ) : ℚ := l.foldr max (l.getD 0 0)

/-- `weekday_factors` of `_estimate_missing_pattern` (`visitor_analysis.py`
lines 371-379). -/
def weekdayFactor : WeekdayE → ℚ
  | WeekdayE.monday => 8/10
  | WeekdayE.tuesday => 85/100
  | WeekdayE.wednesday => 9/10
  | WeekdayE.thursday => 95/100
  | WeekdayE.friday => 1
  | WeekdayE.saturday => 13/10
  | WeekdayE.sunday => 125/100

/-- `weather_factors` of `_estimate_missing_pattern` (`visitor_analysis.py`
lines 382-387). -/
def weatherFactor : WeatherE → ℚ
  | WeatherE.sunny => 11/10
  | WeatherE.cloudy => 1
  | WeatherE.rainy => 7/10
  | WeatherE.snowy => 5/10

/-- `VisitorAnalyzer._estimate_missing_pattern` (`visitor_analysis.py`
lines 345-394): collect the stored averages of the cells of the SAME
weather already present in the accumulated dict with a positive count
(`key.startswith(f"{weather}_") and data["count"] > 0`; with the four
weather names, the string prefix test is exactly equality of the weather
component); take their mean, or the fixed baseline 300 when none exist,
and scale by the weekday and weather factors, rounding to one digit. -/
def estimate_missing_pattern (acc : List ((WeatherE × WeekdayE) × VCell))
    (w : WeatherE) (d : WeekdayE) : ℚ :=
  let sameWeatherAvgs := acc.filterMap (fun p =>
    if p.1.1 = w ∧ 0 < p.2.count then some p.2.average else none)
  let base : ℚ := if sameWeatherAvgs.isEmpty then 300 else qmean sameWeatherAvgs
  round1 (base * weekdayFactor d * weatherFactor w)

/-- The rows of the cleaned frame matching one (weather, weekday) cell. -/
def cellRows (recs : List VRec) (w : WeatherE) (d : WeekdayE) : List VRec :=
  recs.filter (fun r => r.weather = w ∧ r.weekday = d)

/-- The observed cell built for a nonempty filtered set
(`visitor_analysis.py` lines 296-311): rounded mean, sample count, min and
max. -/
def observedCell (recs : List VRec) (w : WeatherE) (d : WeekdayE) : VCell :=
  { average := round1 (qmean ((cellRows recs w d).map (fun r => r.visitors)))
    count := (cellRows recs w d).length
    vmin := pyTrunc (qlistMin ((cellRows recs w d).map (fun r => r.visitors)))
    vmax := pyTrunc (qlistMax ((cellRows recs w d).map (fun r => r.visitors)))
    estimated := false }

/-- The body of the nested loop of `calculate_visitor_averages`
(`visitor_analysis.py` lines 286-325): an observed cell when the filtered
data is nonempty, otherwise an estimated cell computed from the averages
accumulated SO FAR. -/
def cellFor (recs : List VRec) (acc : List ((WeatherE × WeekdayE) × VCell))
    (w : WeatherE) (d : WeekdayE) : VCell :=
  if (cellRows recs w d).isEmpty then
    { average := estimate_missing_pattern acc w d
      count := 0, vmin := 0, vmax := 0, estimated := true }
  else observedCell recs w d

/-- The nested-loop accumulation of the 28-cell table, processing the given
pairs in order and extending the accumulated dict after each cell. -/
def buildCells (recs : List VRec) :
    List (WeatherE × WeekdayE) → List ((WeatherE × WeekdayE) × VCell) →
    List ((WeatherE × WeekdayE) × VCell)
  | [], acc => acc
  | p :: ps, acc => buildCells recs ps (acc ++ [(p, cellFor recs acc p.1 p.2)])

/-- The full `averages` table computed by `calculate_visitor_averages` on a
nonempty cleaned frame (`visitor_analysis.py` lines 282-325). -/
def calcCells (recs : List VRec) : List ((WeatherE × WeekdayE) × VCell) :=
  buildCells recs allPairs []

/-- Result shape of `calculate_visitor_averages`: the cell table, the
status flag, the record total and the error message of the fallback path.
The further display statistics (weather/weekday histograms, overall
average, timestamps) are not modelled; no claim concerns them. -/
structure VAResult where
  averages : List ((WeatherE × WeekdayE) × VCell)
  status : String
  total_records : ℕ
  error_message : Option String
  deriving Repr

/-- `VisitorAnalyzer._get_fallback_averages` (`visitor_analysis.py` lines
396-415): an empty table, status "error" and an error message — no
fabricated numeric values. -/
def get_fallback_averages : VAResult :=
  { averages := [], status := "error", total_records := 0
    error_message := some "データ取得に失敗しました" }

/-- `VisitorAnalyzer.calculate_visitor_averages` (`visitor_analysis.py`
lines 252-343) with the fetched-and-cleaned frame passed explicitly; an
empty frame (fetch failure or nothing surviving cleaning) takes the
fallback path. -/
def calculate_visitor_averages (recs : List VRec) : VAResult :=
  if recs.isEmpty then get_fallback_averages
  else
    { averages := calcCells recs, status := "success"
      total_records := recs.length, error_message := none }

/-- A calendar date as fed to `datetime.strptime(date, "%Y-%m-%d")`. -/
structure CDate where
  year : ℤ
  month : ℕ
  day : ℕ
  deriving DecidableEq, Repr

/-- Days since 1970-01-01 of a civil date (Howard Hinnant's algorithm,
with floor division); embeds `datetime.date` ordering and weekdays. -/
def daysFromCivil (dt : CDate) : ℤ :=
  let y : ℤ := if dt.month ≤ 2 then dt.year - 1 else dt.year
  let era : ℤ := Int.fdiv y 400
  let yoe : ℤ := y - era * 400
  let mp : ℤ := (((dt.month : ℤ) + 9) % 12)
  let doy : ℤ := Int.fdiv (153 * mp + 2) 5 + (dt.day : ℤ) - 1
  let doe : ℤ := yoe * 365 + Int.fdiv yoe 4 - Int.fdiv yoe 100 + doy
  era * 146097 + doe - 719468

/-- Python `date.weekday()`: Monday = 0 … Sunday = 6 (1970-01-01 was a
Thursday, weekday 3). -/
def weekdayNum (dt : CDate) : ℕ := (Int.emod (daysFromCivil dt + 3) 7).toNat

/-- `self.weekday_names[weekday_num]` (`visitor_analysis.py` lines 33-41,
430-432). -/
def weekdayOf (dt : CDate) : WeekdayE :=
  match weekdayNum dt with
  | 0 => WeekdayE.monday
  | 1 => WeekdayE.tuesday
  | 2 => WeekdayE.wednesday
  | 3 => WeekdayE.thursday
  | 4 => WeekdayE.friday
  | 5 => WeekdayE.saturday
  | _ => WeekdayE.sunday

/-- Result shape of `get_visitor_estimate`'s normal return
(`visitor_analysis.py` lines 442-451).  The source's exception path is the
only one that carries an `error` key; the normal path sets none. -/
structure EstimateResult where
  estimated_visitors : ℚ
  data_count : ℕ
  confidence : String
  weekday : WeekdayE
  error : Option String
  deriving DecidableEq, Repr

/-- `VisitorAnalyzer.get_visitor_estimate` (`visitor_analysis.py` lines
417-461) with the cleaned frame passed explicitly: derive the weekday,
recompute the averages table, look the (weather, weekday) cell up and fall
back to `{"average": 300, "count": 0}` when the key is absent. -/
def get_visitor_estimate (recs : List VRec) (date : CDate) (w : WeatherE) :
    EstimateResult :=
  let wd := weekdayOf date
  let averages := (calculate_visitor_averages recs).averages
  let pattern : VCell := (averages.lookup (w, wd)).getD
    { average := 300, count := 0, vmin := 0, vmax := 0, estimated := false }
  { estimated_visitors := pattern.average
    data_count := pattern.count
    confidence :=
      if 5 ≤ pattern.count then "high"
      else if 2 ≤ pattern.count then "medium" else "low"
    weekday := wd
    error := none }

-- ===========================================================================
-- Feature encoding: src/ml/feature_engineering.py
-- ===========================================================================

/-- The weather encoding table of
`AjiFishingFeatureEngineer.encode_categorical_features`
(`feature_engineering.py` lines 129-135), verbatim. -/
def fe_weather_mapping : List (String × ℚ) :=
  [("晴れ", 0), ("晴", 0), ("曇り", 1), ("曇", 1), ("雨", 2), ("雪", 3)]

/-- `df["天気"].map(weather_mapping)` followed by `fillna(1)`
(`feature_engineering.py` lines 136-138): unmapped text gets the cloudy
code 1. -/
def encodeWeatherFE (raw : String) : ℚ :=
  (fe_weather_mapping.lookup raw).getD 1

-- ===========================================================================
-- Record Normalizer (historical side): src/api/historical.py,
-- load_fishing_data, and src/ml/data_loader.py, _preprocess_fishing_data
-- ===========================================================================

/-- A raw spreadsheet row as returned by `get_all_records`: every field is
free text. -/
structure RawRow where
  date : String
  weather : String
  waterTemp : String
  tide : String
  visitors : String
  fish : String
  catchCount : String
  size : String
  location : String
  comment : String
  deriving DecidableEq, Repr

/-- Split a character list at the first decimal point of a numeric token:
consume leading digits, then an optional `.` followed by digits.  Returns
the integer digits, the fraction digits and a flag telling whether a dot
was consumed (helper for the regex `(\d+\.?\d*)`). -/
def takeNumToken (cs : List Char) : List Char × List Char :=
  let intPart := cs.takeWhile (·.isDigit)
  let rest := cs.drop intPart.length
  match rest with
  | '.' :: rest2 => (intPart, rest2.takeWhile (·.isDigit))
  | _ => (intPart, [])

/-- Value of a digit list read as a decimal natural. -/
def digitsVal (cs : List Char) : ℕ :=
  cs.foldl (fun acc c => acc * 10 + (c.toNat - 48)) 0

/-- First match of the regex `(\d+\.?\d*)` in a string, as an exact
rational (`"11.0℃" ↦ 11`); `none` when the string holds no digit.  This is
the water-temperature extraction of `historical.py` line 107 and
`data_loader.py` lines 202-211. -/
def extractNumber (s : String) : Option ℚ :=
  match s.toList.dropWhile (fun c => !c.isDigit) with
  | [] => none
  | cs =>
      let (ip, fp) := takeNumToken cs
      some (mkRat (digitsVal ip * 10 ^ fp.length + digitsVal fp) (10 ^ fp.length))

/-- First match of the regex `(\d+)` in a string (`"174名" ↦ 174`); `none`
when the string holds no digit.  This is the visitor-count extraction of
`historical.py` line 111 and `data_loader.py` lines 213-222. -/
def extractInt (s : String) : Option ℕ :=
  match s.toList.dropWhile (fun c => !c.isDigit) with
  | [] => none
  | cs => some (digitsVal (cs.takeWhile (·.isDigit)))

/-- A calendar date of the ledger, with numeric key `YYYYMMDD` used for all
comparisons and sorting (date order equals key order for valid dates). -/
structure HDate where
  year : ℕ
  month : ℕ
  day : ℕ
  deriving DecidableEq, Repr

def hdateKey (d : HDate) : ℕ := (d.year * 100 + d.month) * 100 + d.day

/-- `strptime(s, "%Y/%m/%d")` after stripping the parenthesized weekday
marker (`"2025/01/31(金)" → "2025/01/31"`, `historical.py` lines 96-97 and
`data_loader.py` lines 196-198): split on `/`, require three in-range
numeric fields. -/
def parseDateSlash (s : String) : Option HDate :=
  let cleaned := (splitOnChar '(' s.toList).getD 0 []
  match splitOnChar '/' cleaned with
  | [ys, ms, ds] =>
      if allDigits ys ∧ allDigits ms ∧ allDigits ds ∧
          ys.length ≤ 4 ∧ ms.length ≤ 2 ∧ ds.length ≤ 2 then
        let y := digitsToNat ys
        let m := digitsToNat ms
        let d := digitsToNat ds
        if 1 ≤ m ∧ m ≤ 12 ∧ 1 ≤ d ∧ d ≤ daysInMonth y m ∧ 1 ≤ y then
          some { year := y, month := m, day := d }
        else none
      else none
  | _ => none

/-- Strip leading and trailing whitespace from a character list. -/
def trimChars (cs : List Char) : List Char :=
  ((cs.dropWhile (·.isWhitespace)).reverse.dropWhile (·.isWhitespace)).reverse

/-- `pd.to_numeric(s, errors="coerce")` on a catch-count field: an
optionally signed decimal numeral, `NaN` (`none`) otherwise. -/
def toNumeric (s : String) : Option ℚ :=
  let (neg, body) :=
    match trimChars s.toList with
    | '-' :: rest => (true, rest)
    | '+' :: rest => (false, rest)
    | cs => (false, cs)
  if body.isEmpty ∨ body.any (fun c => !(c.isDigit ∨ c = '.')) ∨
      (body.filter (· = '.')).length > 1 ∨ body = ['.'] then none
  else
    let (ip, fp) := (body.takeWhile (· ≠ '.'), (body.dropWhile (· ≠ '.')).drop 1)
    let n : ℤ := (digitsVal ip * 10 ^ fp.length + digitsVal fp : ℕ)
    some (mkRat (if neg then -n else n) (10 ^ fp.length))

/-- A normalized ledger record as produced by `load_fishing_data`. -/
structure HRecord where
  date : HDate
  weather : String
  waterTemp : Option ℚ
  tide : String
  visitors : ℕ
  fish : String
  catchCount : ℤ
  size : String
  location : String
  comment : String
  deriving DecidableEq, Repr

/-- `load_fishing_data` (`historical.py` lines 58-122) after the sheet
fetch: empty data raises; the date column is cleaned and coerced (failures
become `NaT`), the catch count is coerced (failures become `NaN`), the
water temperature keeps its first numeric token (failures stay `NaN` — the
column is cast to FLOAT, which tolerates `NaN`), but the visitor column is
cast with `.astype(int)`, which RAISES as soon as any single row holds no
digit; finally rows with an unparsable date are dropped and rows with a
negative (or unparsable) catch count are filtered out. -/
def load_fishing_data (rows : List RawRow) : Except String (List HRecord) :=
  if rows.isEmpty then Except.error "釣果データが空です"
  else if (rows.map (fun r => extractInt r.visitors)).any (fun o => o.isNone) then
    Except.error "Cannot convert non-finite values (NA or inf) to integer"
  else
    Except.ok (rows.filterMap (fun r =>
      match parseDateSlash r.date, toNumeric r.catchCount with
      | some d, some c =>
          if 0 ≤ c then
            some { date := d
                   weather := r.weather
                   waterTemp := extractNumber r.waterTemp
                   tide := r.tide
                   visitors := (extractInt r.visitors).getD 0
                   fish := r.fish
                   catchCount := pyTrunc c
                   size := r.size
                   location := r.location
                   comment := r.comment }
          else none
      | _, _ => none))

/-- A row of `FishingDataLoader._preprocess_fishing_data`
(`data_loader.py` lines 134-160): per-row parses, failures nulled, and only
rows whose DATE fails to parse are dropped; the catch count falls back to 0
(`fillna(0)`) and temperature / visitor count stay null. -/
structure MLRecord where
  date : HDate
  weather : String
  waterTempNum : Option ℚ
  tide : String
  visitorsNum : Option ℕ
  fish : String
  catchCount : ℚ
  raw : RawRow
  deriving DecidableEq, Repr

/-- `_preprocess_fishing_data`: every field parse is absorbed per row
(`errors="coerce"` / `try-except` returning `None`); the final
`dropna(subset=["日付_parsed"])` removes exactly the rows with an
unparsable date. -/
def preprocess_fishing_data (rows : List RawRow) : List MLRecord :=
  rows.filterMap (fun r =>
    match parseDateSlash r.date with
    | none => none
    | some d =>
        some { date := d
               weather := r.weather
               waterTempNum := extractNumber r.waterTemp
               tide := r.tide
               visitorsNum := extractInt r.visitors
               fish := r.fish
               catchCount := (toNumeric r.catchCount).getD 0
               raw := r })

-- ===========================================================================
-- Historical Query Engine: src/api/historical.py,
-- get_historical_data / generate_summary
-- ===========================================================================

/-- Per-group aggregate of `generate_summary`'s
`agg(["count", "sum", "mean"]).round(1)` blocks. -/
structure GroupStats where
  days : ℕ
  total_catch : ℤ
  avg_catch : ℚ
  deriving DecidableEq, Repr

/-- One grouped aggregate: count, sum and the mean rounded to one digit,
over the records selected by `sel` (dicts are embedded extensionally, as
the map from group key to stats). -/
def groupStats (recs : List HRecord) (sel : HRecord → Bool) : Option GroupStats :=
  let g := recs.filter sel
  if g.isEmpty then none
  else some { days := g.length
              total_catch := (g.map (fun r => r.catchCount)).sum
              avg_catch := round1 (qmean (g.map (fun r => (r.catchCount : ℚ)))) }

/-- The summary dict of `generate_summary` (`historical.py` lines 227-300);
the three `by_*` dicts are embedded extensionally as partial maps. -/
structure HSummary where
  total_records : ℕ
  total_catch : ℤ
  avg_catch : ℚ
  max_catch : ℤ
  min_catch : ℤ
  date_start : Option ℕ
  date_end : Option ℕ
  by_month : ℕ × ℕ → Option GroupStats
  by_fish_type : String → Option GroupStats
  by_weather : String → Option GroupStats
  empty_message : Option String

/-- `generate_summary` (`historical.py` lines 227-300): the no-data path
returns only a message, otherwise totals, the date range and the three
groupings, all computed over the FULL filtered set. -/
def generate_summary (recs : List HRecord) : HSummary :=
  if recs.isEmpty then
    { total_records := 0, total_catch := 0, avg_catch := 0
      max_catch := 0, min_catch := 0, date_start := none, date_end := none
      by_month := fun _ => none, by_fish_type := fun _ => none
      by_weather := fun _ => none
      empty_message := some "条件に一致するデータがありません" }
  else
    let catches := recs.map (fun r => r.catchCount)
    let keys := recs.map (fun r => hdateKey r.date)
    { total_records := recs.length
      total_catch := catches.sum
      avg_catch := round1 (qmean (catches.map (fun c => (c : ℚ))))
      max_catch := catches.foldr max (catches.getD 0 0)
      min_catch := catches.foldr min (catches.getD 0 0)
      date_start := some (keys.foldr min (keys.getD 0 0))
      date_end := some (keys.foldr max (keys.getD 0 0))
      by_month := fun ym =>
        groupStats recs (fun r => decide (r.date.year = ym.1 ∧ r.date.month = ym.2))
      by_fish_type := fun sp => groupStats recs (fun r => r.fish = sp)
      by_weather := fun w => groupStats recs (fun r => r.weather = w)
      empty_message := none }

/-- The optional filters of `get_historical_data`. -/
structure HFilters where
  fish : String
  start_date : Option ℕ
  end_date : Option ℕ
  weather : Option String
  tide : Option String

/-- The AND of the four independent filters (`historical.py` lines
140-167): species equality unless the parameter is (case-insensitively)
"all", inclusive date bounds, weather equality, tide equality. -/
def matchesFilters (f : HFilters) (r : HRecord) : Bool :=
  (f.fish.toLower = "all" || r.fish = f.fish) &&
  (match f.start_date with | none => true | some k => k ≤ hdateKey r.date) &&
  (match f.end_date with | none => true | some k => hdateKey r.date ≤ k) &&
  (match f.weather with | none => true | some w => r.weather = w) &&
  (match f.tide with | none => true | some t => r.tide = t)

/-- Response shape of `get_historical_data` (`historical.py` lines
195-212). -/
structure HResponse where
  records : List HRecord
  total_count : ℕ
  returned_count : ℕ
  summary : HSummary

/-- `get_historical_data` (`historical.py` lines 124-212) after the load:
filter, sort by date descending, take the first `limit` rows as the page,
and compute `total_count` and the summary over the full filtered set
BEFORE limiting. -/
def get_historical_data (db : List HRecord) (f : HFilters) (limit : ℕ) :
    HResponse :=
  let filtered := db.filter (matchesFilters f)
  let sorted := filtered.insertionSort (fun a b => hdateKey b.date ≤ hdateKey a.date)
  let display := sorted.take limit
  { records := display
    total_count := sorted.length
    returned_count := display.length
    summary := generate_summary sorted }

-- ===========================================================================
-- Spec-side cell functions for the missing-cell estimate (claim C5)
-- ===========================================================================

/-- The rounded observed average of a cell, as a pure function of the
cleaned frame: `none` when the cell has no rows. -/
def specObservedAvg (recs : List VRec) (w : WeatherE) (d : WeekdayE) :
    Option ℚ :=
  if (cellRows recs w d).isEmpty then none
  else some (observedCell recs w d).average

/-- The base value of a missing-cell estimate over a given collection of
(weather, weekday) cells: the mean of the rounded observed averages of the
cells of the SAME weather in that collection, or the fixed baseline 300
when none of them is observed. -/
def specBase (recs : List VRec) (w : WeatherE)
    (cells : List (WeatherE × WeekdayE)) : ℚ :=
  let avgs := cells.filterMap (fun q =>
    if q.1 = w then specObservedAvg recs q.1 q.2 else none)
  if avgs.isEmpty then 300 else qmean avgs

/-- The cells that the nested loop processes strictly before `p`: the
prefix of the weather-major pair order up to (excluding) `p`. -/
def pairsBefore (p : WeatherE × WeekdayE) : List (WeatherE × WeekdayE) :=
  allPairs.takeWhile (fun q => !(q == p))

/-- Amended-claim cell function: the value the code actually produces, as a
pure function of the cleaned frame.  For a missing cell the base draws ONLY
on the same-weather cells that occur STRICTLY EARLIER in the fixed
weather-major iteration order (for a fixed weather: the weekdays before
this one in Monday..Sunday order). -/
def specCell (recs : List VRec) (p : WeatherE × WeekdayE) : VCell :=
  if (cellRows recs p.1 p.2).isEmpty then
    { average := round1 (specBase recs p.1 (pairsBefore p) *
        weekdayFactor p.2 * weatherFactor p.1)
      count := 0, vmin := 0, vmax := 0, estimated := true }
  else observedCell recs p.1 p.2

/-- Modelled from the spec (claim comparison only): the cell function claim
C5 describes, whose base for a missing cell is the average of the observed
means of ALL cells sharing that cell's weather (not only the earlier
ones). -/
def specCellClaim (recs : List VRec) (p : WeatherE × WeekdayE) : VCell :=
  if (cellRows recs p.1 p.2).isEmpty then
    { average := round1 (specBase recs p.1 allPairs *
        weekdayFactor p.2 * weatherFactor p.1)
      count := 0, vmin := 0, vmax := 0, estimated := true }
  else observedCell recs p.1 p.2


-- ===========================================================================
-- Concrete inputs used by the counterexamples and witnesses
-- ===========================================================================

/-- Three artifact files of the active model kind whose names carry no
parsable timestamp, with opposite creation-time and modification-time
orders. -/
def pfileA : PFile := { name := "aji_xgboost_modelA.pkl", ctimeKey := 1, mtimeKey := 3 }

def pfileB : PFile := { name := "aji_xgboost_modelB.pkl", ctimeKey := 2, mtimeKey := 2 }

def pfileC : PFile := { name := "aji_xgboost_modelC.pkl", ctimeKey := 3, mtimeKey := 1 }

/-- A fully well-formed raw ledger row. -/
def goodRawRow : RawRow :=
  { date := "2025/01/31(金)", weather := "晴れ", waterTemp := "11.0℃",
    tide := "大潮", visitors := "174名", fish := "アジ", catchCount := "24",
    size := "15-20cm", location := "沖桟橋", comment := "" }

/-- A raw row that is well formed except for its visitor-count field, which
holds no digit at all. -/
def badVisitorRow : RawRow :=
  { date := "2025/02/01(土)", weather := "曇り", waterTemp := "12.0℃",
    tide := "中潮", visitors := "不明", fish := "アジ", catchCount := "10",
    size := "15-20cm", location := "沖桟橋", comment := "" }

/-- The normalized record `load_fishing_data` produces for `goodRawRow`. -/
def goodNormalized : HRecord :=
  { date := { year := 2025, month := 1, day := 31 },
    weather := "晴れ", waterTemp := some 11, tide := "大潮",
    visitors := 174, fish := "アジ", catchCount := 24,
    size := "15-20cm", location := "沖桟橋", comment := "" }

/-- A single cleaned visitor record: a sunny Tuesday with 500 visitors. -/
def vrecSunnyTue : VRec :=
  { weekday := WeekdayE.tuesday, weather := WeatherE.sunny, visitors := 500 }

-- ===========================================================================
-- Helper lemmas
-- ===========================================================================

theorem takeWhile_ne_append :
    ∀ (l1 : List (WeatherE × WeekdayE)) (a : WeatherE × WeekdayE)
      (l2 : List (WeatherE × WeekdayE)), a ∉ l1 →
      (l1 ++ a :: l2).takeWhile (fun x => !(x == a)) = l1
  | [], a, l2, _ => by simp
  | b :: l1, a, l2, h => by
      have hb : (b == a) = false :=
        beq_eq_false_iff_ne.mpr (fun e => h (e ▸ List.mem_cons_self b l1))
      have hrec := takeWhile_ne_append l1 a l2 (fun m => h (List.mem_cons_of_mem _ m))
      simp only [List.cons_append, List.takeWhile_cons, hb]
      simp [hrec]

theorem allPairs_nodup : allPairs.Nodup := by decide

/-- The same-weather positive-count averages collected from a table of
`specCell` values coincide with the observed cell averages. -/
theorem avgs_of_specCells (recs : List VRec) (w : WeatherE)
    (pre : List (WeatherE × WeekdayE)) :
    ((pre.map (fun q => (q, specCell recs q))).filterMap (fun p =>
        if p.1.1 = w ∧ 0 < p.2.count then some p.2.average else none))
      = pre.filterMap (fun q =>
          if q.1 = w then specObservedAvg recs q.1 q.2 else none) := by
  rw [List.filterMap_map]
  refine List.filterMap_congr (fun q _ => ?_)
  obtain ⟨qw, qd⟩ := q
  by_cases hw : qw = w
  · subst hw
    cases he : (cellRows recs qw qd).isEmpty with
    | true =>
        have hnil : cellRows recs qw qd = [] := by simpa using he
        simp [specCell, specObservedAvg, hnil]
    | false =>
        have hne : cellRows recs qw qd ≠ [] := by
          intro hnil
          rw [hnil] at he
          simp at he
        have hlen : 0 < (cellRows recs qw qd).length := List.length_pos.mpr hne
        simp [specCell, specObservedAvg, observedCell, hne, hlen]
  · simp [hw]

theorem pairsBefore_of_split (pre : List (WeatherE × WeekdayE))
    (p : WeatherE × WeekdayE) (ps : List (WeatherE × WeekdayE))
    (h : pre ++ p :: ps = allPairs) : pairsBefore p = pre := by
  have hnd : (pre ++ p :: ps).Nodup := by rw [h]; exact allPairs_nodup
  have hnp : p ∉ pre := by
    intro hm
    exact (List.disjoint_of_nodup_append hnd) hm (List.mem_cons_self p ps)
  unfold pairsBefore
  rw [← h]
  exact takeWhile_ne_append pre p ps hnp

/-- One loop step applied to an accumulated table of `specCell` values
produces exactly the `specCell` value of the pair being processed. -/
theorem cellFor_eq_specCell (recs : List VRec) (pre : List (WeatherE × WeekdayE))
    (p : WeatherE × WeekdayE) (ps : List (WeatherE × WeekdayE))
    (h : pre ++ p :: ps = allPairs) :
    cellFor recs (pre.map (fun q => (q, specCell recs q))) p.1 p.2 =
      specCell recs p := by
  have hpb := pairsBefore_of_split pre p ps h
  obtain ⟨pw, pd⟩ := p
  cases he : (cellRows recs pw pd).isEmpty with
  | false => simp [cellFor, specCell, he]
  | true =>
      have hL : cellFor recs (pre.map (fun q => (q, specCell recs q))) pw pd =
          { average := estimate_missing_pattern
              (pre.map (fun q => (q, specCell recs q))) pw pd,
            count := 0, vmin := 0, vmax := 0, estimated := true } := by
        simp [cellFor, he]
      have hR : specCell recs (pw, pd) =
          { average := round1 (specBase recs pw (pairsBefore (pw, pd)) *
              weekdayFactor pd * weatherFactor pw),
            count := 0, vmin := 0, vmax := 0, estimated := true } := by
        simp [specCell, he]
      have havg : estimate_missing_pattern
          (pre.map (fun q => (q, specCell recs q))) pw pd =
          round1 (specBase recs pw pre * weekdayFactor pd * weatherFactor pw) := by
        simp only [estimate_missing_pattern, specBase]
        rw [avgs_of_specCells recs pw pre]
      rw [hL, hR, hpb, havg]

/-- The nested loop of `calculate_visitor_averages` computes `specCell` at
every pair, in order. -/
theorem buildCells_spec (recs : List VRec) :
    ∀ (ps pre : List (WeatherE × WeekdayE)), pre ++ ps = allPairs →
      buildCells recs ps (pre.map (fun q => (q, specCell recs q))) =
        allPairs.map (fun q => (q, specCell recs q))
  | [], pre, h => by
      rw [List.append_nil] at h
      rw [h, buildCells]
  | p :: ps, pre, h => by
      rw [buildCells]
      have hstep : pre.map (fun q => (q, specCell recs q)) ++
          [(p, cellFor recs (pre.map (fun q => (q, specCell recs q))) p.1 p.2)] =
          (pre ++ [p]).map (fun q => (q, specCell recs q)) := by
        rw [cellFor_eq_specCell recs pre p ps h, List.map_append, List.map_cons,
          List.map_nil]
      rw [hstep]
      exact buildCells_spec recs ps (pre ++ [p])
        (by rw [List.append_assoc]; simpa using h)

theorem pyRound_intCast (n : ℤ) : pyRound ((n : ℚ)) = n := by
  norm_num [pyRound, Int.floor_intCast]

theorem round1_intCast (n : ℤ) : round1 ((n : ℚ)) = ((n : ℚ)) := by
  unfold round1
  have h10 : (10 : ℚ) * (n : ℚ) = (((10 * n : ℤ) : ℚ)) := by push_cast; ring
  rw [h10, pyRound_intCast]
  push_cast
  ring

theorem cleanup_sorted (files : List PFile) :
    List.Sorted (fun a b => extractKey b ≤ extractKey a)
      (files.insertionSort (fun a b => extractKey b ≤ extractKey a)) := by
  haveI : IsTotal PFile (fun a b => extractKey b ≤ extractKey a) :=
    ⟨fun a b => le_total (extractKey b) (extractKey a)⟩
  haveI : IsTrans PFile (fun a b => extractKey b ≤ extractKey a) :=
    ⟨fun _ _ _ h1 h2 => le_trans h2 h1⟩
  exact List.sorted_insertionSort _ files

-- ===========================================================================
-- Claim theorems
-- ===========================================================================

/-- C1: every value returned by a successful `AjiPredictor.predict` call is
nonnegative (negative regressor outputs are clipped to 0 by
`np.maximum(predictions, 0)`), and `FishingPredictor.predict_aji` likewise
never reports a negative catch count (`max(0, int(round(prediction)))`). -/
theorem c1_predict_nonneg :
    (∀ (s : PState) (X : PInput) (ys : List ℚ),
        predict s X = Except.ok ys → ∀ y ∈ ys, 0 ≤ y) ∧
    (∀ (m : RModel) (fs : List ℚ), 0 ≤ predict_aji_catch m fs) := by
  constructor
  · intro s X ys h y hy
    unfold predict at h
    repeat' split at h
    all_goals
      first
        | exact Except.noConfusion h
        | (simp only [Except.ok.injEq] at h
           subst h
           obtain ⟨v, -, rfl⟩ := List.mem_map.mp hy
           exact le_max_right v 0)
  · intro m fs
    exact le_max_left 0 _

/-- Witness for C1: a trained model whose raw outputs are [-3, 5] predicts
[0, 5], and the theorem certifies 0 ≤ 5 for the clipped output. -/
theorem c1_predict_nonneg_witness : (0:ℚ) ≤ 5 :=
  c1_predict_nonneg.1
    { model := fun _ => [-3, 5], model_type := "xgboost",
      feature_columns := ["月"], is_trained := true, training_history := "h" }
    (PInput.raw [[1]]) [0, 5] rfl 5 (by simp)

/-- C2 counterexample: with no data at all, `get_visitor_estimate` does NOT
return an explicit error result — it reports the fabricated global default
of 300 visitors with no error marker, while `calculate_visitor_averages`
does return the explicit error result. -/
theorem c2_counterexample :
    (get_visitor_estimate [] ⟨2024, 8, 10⟩ WeatherE.sunny).estimated_visitors = 300 ∧
    (get_visitor_estimate [] ⟨2024, 8, 10⟩ WeatherE.sunny).error = none ∧
    (calculate_visitor_averages []).status = "error" := ⟨rfl, rfl, rfl⟩

/-- C2 amended: when no data at all can be obtained,
`calculate_visitor_averages` returns an explicit error result (status
"error", empty table, error message, no fabricated values); the point
estimate `get_visitor_estimate`, however, then falls back to the fixed
default of 300 visitors with sample count 0 and confidence "low", without
an error marker. -/
theorem c2_no_data_paths :
    ∀ (date : CDate) (w : WeatherE),
      (calculate_visitor_averages []).status = "error" ∧
      (calculate_visitor_averages []).averages = [] ∧
      (calculate_visitor_averages []).error_message.isSome = true ∧
      get_visitor_estimate [] date w =
        { estimated_visitors := 300, data_count := 0, confidence := "low",
          weekday := weekdayOf date, error := none } :=
  fun _ _ => ⟨rfl, rfl, rfl, rfl⟩

/-- C3 counterexample: on three artifact files with unparsable names, the
retained pair under the code (creation-time fallback, `os.path.getctime`)
differs from the retained pair under the claim (modification-time
fallback). -/
theorem c3_counterexample :
    (cleanup_old_models [pfileA, pfileB, pfileC] 2).kept = [pfileC, pfileB] ∧
    (cleanup_old_models_mtimeSpec [pfileA, pfileB, pfileC] 2).kept = [pfileA, pfileB] ∧
    (cleanup_old_models [pfileA, pfileB, pfileC] 2).kept ≠
      (cleanup_old_models_mtimeSpec [pfileA, pfileB, pfileC] 2).kept := by
  refine ⟨?_, ?_, ?_⟩ <;> decide

/-- C3 amended: after `cleanup_old_models` with keep = 2, at most 2
artifacts of the model kind remain (exactly min(n, 2)), the kept and
deleted files partition the input, and every deleted file's key is at most
every kept file's key — where the key is the timestamp embedded in the
filename, falling back to the file CREATION time (`os.path.getctime`, not
the modification time) when unparsable. -/
theorem c3_retention :
    ∀ (files : List PFile),
      (cleanup_old_models files 2).kept.length = min files.length 2 ∧
      ((cleanup_old_models files 2).kept ++ (cleanup_old_models files 2).deleted).Perm files ∧
      ((cleanup_old_models files 2).deleted.all (fun d =>
          (cleanup_old_models files 2).kept.all (fun k =>
            extractKey d ≤ extractKey k))) = true := by
  intro files
  unfold cleanup_old_models
  split
  · next h =>
    refine ⟨(Nat.min_eq_left h).symm, ?_, rfl⟩
    simp
  · next h =>
    have hperm := List.perm_insertionSort
      (fun a b => extractKey b ≤ extractKey a) files
    have hlen := List.length_insertionSort
      (fun a b => extractKey b ≤ extractKey a) files
    have hsorted := cleanup_sorted files
    refine ⟨?_, ?_, ?_⟩
    · simp only [List.length_take, hlen]
      omega
    · simp only [List.take_append_drop]
      exact hperm
    · rw [List.all_eq_true]
      intro d hd
      rw [List.all_eq_true]
      intro k hk
      have hpw : List.Pairwise (fun a b => extractKey b ≤ extractKey a)
          ((files.insertionSort (fun a b => extractKey b ≤ extractKey a)).take 2 ++
           (files.insertionSort (fun a b => extractKey b ≤ extractKey a)).drop 2) := by
        rw [List.take_append_drop]
        exact hsorted
      have := (List.pairwise_append.mp hpw).2.2 k hk d hd
      exact decide_eq_true this

/-- C4: `fit` splits chronologically with no shuffling — the training
partition is the first ⌊n · (1 − f)⌋ rows and the validation partition the
rest, both in the original order; with f = 1/5 and n = 100 the split is
exactly 80 and 20 rows. -/
theorem c4_chronological_split :
    ∀ (X : List (List ℚ)) (y : List ℚ) (f : ℚ), 0 ≤ f → f ≤ 1 →
      (fitSplit X y f).1 ++ (fitSplit X y f).2.1 = X ∧
      (fitSplit X y f).2.2.1 ++ (fitSplit X y f).2.2.2 = y ∧
      (fitSplit X y f).1.length = (⌊(X.length : ℚ) * (1 - f)⌋).toNat ∧
      (X.length = 100 → f = 1/5 →
        (fitSplit X y f).1.length = 80 ∧ (fitSplit X y f).2.1.length = 20) := by
  intro X y f hf0 hf1
  have hq : (0:ℚ) ≤ (X.length : ℚ) * (1 - f) :=
    mul_nonneg (by positivity) (by linarith)
  have htr : pyTrunc ((X.length : ℚ) * (1 - f)) = ⌊(X.length : ℚ) * (1 - f)⌋ := by
    unfold pyTrunc
    rw [if_pos hq]
  have hle : (⌊(X.length : ℚ) * (1 - f)⌋).toNat ≤ X.length := by
    have h1 : (X.length : ℚ) * (1 - f) ≤ ((X.length : ℕ) : ℚ) := by nlinarith
    have h2 := Int.floor_le_floor h1
    rw [Int.floor_natCast] at h2
    exact Int.toNat_le.mpr h2
  have hlen : (fitSplit X y f).1.length = (⌊(X.length : ℚ) * (1 - f)⌋).toNat := by
    simp [fitSplit, htr, List.length_take, Nat.min_eq_left hle]
  refine ⟨by simp [fitSplit], by simp [fitSplit], hlen, ?_⟩
  intro h100 hf
  have hval : (X.length : ℚ) * (1 - f) = 80 := by
    rw [h100, hf]; norm_num
  have h80 : (⌊(X.length : ℚ) * (1 - f)⌋).toNat = 80 := by
    rw [hval]; norm_num; rfl
  constructor
  · rw [hlen, h80]
  · have : (fitSplit X y f).2.1.length = X.length - (pyTrunc ((X.length : ℚ) * (1 - f))).toNat := by
      simp [fitSplit, List.length_drop]
    rw [this, htr, h80, h100]

/-- Witness for C4: on 100 concrete rows with validation fraction 1/5, the
split is exactly 80 training and 20 validation rows. -/
theorem c4_chronological_split_witness :
    (0:ℚ) ≤ 1/5 ∧ (1:ℚ)/5 ≤ 1 ∧
    ((fitSplit (List.replicate 100 [(0:ℚ)]) (List.replicate 100 (0:ℚ)) (1/5)).1).length = 80 ∧
    ((fitSplit (List.replicate 100 [(0:ℚ)]) (List.replicate 100 (0:ℚ)) (1/5)).2.1).length = 20 := by
  refine ⟨by norm_num, by norm_num, ?_⟩
  exact (c4_chronological_split (List.replicate 100 [(0:ℚ)]) (List.replicate 100 (0:ℚ))
    (1/5) (by norm_num) (by norm_num)).2.2.2 (by simp) rfl

/-- C5 counterexample: for the single cleaned record "sunny Tuesday, 500
visitors", the code's empty cell (sunny, Monday) reports 264 (baseline 300
× 0.8 × 1.1, because the sunny Tuesday cell is processed AFTER Monday and
is invisible to the estimate), whereas the claim's formula — the average of
the observed means of all cells sharing the weather — yields 500 × 0.8 ×
1.1 = 440. -/
theorem c5_counterexample :
    ((calcCells [vrecSunnyTue]).lookup (WeatherE.sunny, WeekdayE.monday)) =
      some { average := 264, count := 0, vmin := 0, vmax := 0, estimated := true } ∧
    (specCellClaim [vrecSunnyTue] (WeatherE.sunny, WeekdayE.monday)).average = 440 ∧
    (264 : ℚ) ≠ 440 := by
  have hrows : (cellRows [vrecSunnyTue] WeatherE.sunny WeekdayE.monday).isEmpty = true := by
    decide
  refine ⟨?_, ?_, by norm_num⟩
  · have harith : specBase [vrecSunnyTue] WeatherE.sunny
        (pairsBefore (WeatherE.sunny, WeekdayE.monday)) *
        weekdayFactor WeekdayE.monday * weatherFactor WeatherE.sunny =
        ((264 : ℤ) : ℚ) := by
      have hpb : pairsBefore (WeatherE.sunny, WeekdayE.monday) = [] := by decide
      rw [hpb]
      norm_num [specBase, weekdayFactor, weatherFactor]
    have hcell : specCell [vrecSunnyTue] (WeatherE.sunny, WeekdayE.monday) =
        { average := 264, count := 0, vmin := 0, vmax := 0, estimated := true } := by
      simp only [specCell, hrows, if_true]
      rw [harith, round1_intCast]
      norm_num
    have htab : calcCells [vrecSunnyTue] =
        allPairs.map (fun p => (p, specCell [vrecSunnyTue] p)) :=
      buildCells_spec [vrecSunnyTue] allPairs [] rfl
    rw [htab]
    have hlook : ((allPairs.map (fun p => (p, specCell [vrecSunnyTue] p))).lookup
        (WeatherE.sunny, WeekdayE.monday)) =
        some (specCell [vrecSunnyTue] (WeatherE.sunny, WeekdayE.monday)) := rfl
    rw [hlook, hcell]
  · simp only [specCellClaim, hrows, if_true]
    have havgs : specBase [vrecSunnyTue] WeatherE.sunny allPairs =
        qmean [round1 (qmean [(500:ℚ)])] := rfl
    rw [havgs]
    have h1 : qmean [(500:ℚ)] = ((500:ℤ):ℚ) := by
      norm_num [qmean]
    rw [h1, round1_intCast]
    have h2 : qmean [((500:ℤ):ℚ)] = ((500:ℤ):ℚ) := by
      norm_num [qmean]
    rw [h2]
    have h3 : ((500:ℤ):ℚ) * weekdayFactor WeekdayE.monday *
        weatherFactor WeatherE.sunny = ((440:ℤ):ℚ) := by
      norm_num [weekdayFactor, weatherFactor]
    rw [h3, round1_intCast]
    norm_num

/-- C5 amended: the cell table the code computes equals, cell by cell, the
pure function `specCell`: an observed cell for nonempty data, and for an
empty cell the estimate round1(base × weekday_factor × weather_factor)
where the base is the mean of the rounded observed averages of the
same-weather cells occurring STRICTLY EARLIER in the fixed weather-major
iteration order (or the fixed baseline 300 when none), with estimated =
true and count = 0; saturday, sunday and sunny carry factors above 1 and
rainy and snowy factors below 1. -/
theorem c5_missing_cell_estimate :
    (∀ (recs : List VRec),
        calcCells recs = allPairs.map (fun p => (p, specCell recs p))) ∧
    1 < weekdayFactor WeekdayE.saturday ∧ 1 < weekdayFactor WeekdayE.sunday ∧
    1 < weatherFactor WeatherE.sunny ∧ weatherFactor WeatherE.rainy < 1 ∧
    weatherFactor WeatherE.snowy < 1 := by
  refine ⟨fun recs => buildCells_spec recs allPairs [] rfl, ?_, ?_, ?_, ?_, ?_⟩ <;>
    norm_num [weekdayFactor, weatherFactor]

/-- C6: saving a trained model and loading the artifact just saved restores
a state whose predictions coincide with the original state's on every
input. -/
theorem c6_save_load_roundtrip :
    ∀ (s t : PState) (dir : List PFile) (ts : String) (now : ℕ)
      (fp : String) (a : Artifact) (X : PInput),
      (save_model s dir ts now).2 = Except.ok (fp, a) →
      predict (load_model t a) X = predict s X := by
  intro s t dir ts now fp a X h
  unfold save_model at h
  split at h
  · exact Except.noConfusion h
  · simp only [Except.ok.injEq, Prod.mk.injEq] at h
    obtain ⟨-, rfl⟩ := h
    rfl

/-- Witness for C6: a concrete trained state round-trips through
save/load with identical predictions on a concrete input. -/
theorem c6_save_load_roundtrip_witness :
    predict
      (load_model
        { model := fun _ => [], model_type := "t", feature_columns := [],
          is_trained := false, training_history := "" }
        (makeArtifact
          { model := fun m => m.map (fun r => r.sum), model_type := "xgboost",
            feature_columns := ["月"], is_trained := true, training_history := "h" }))
      (PInput.raw [[2]]) =
    predict
      { model := fun m => m.map (fun r => r.sum), model_type := "xgboost",
        feature_columns := ["月"], is_trained := true, training_history := "h" }
      (PInput.raw [[2]]) :=
  c6_save_load_roundtrip _ _ [] "20250101_000000" 0
    "aji_xgboost_20250101_000000.pkl" _ _ rfl

/-- C7 counterexample: the visitor-statistics weather lookup maps the
compound phrase 曇りのち晴れ ("cloudy-then-sunny") to "sunny", not to
"cloudy" as the claim states for every component. -/
theorem c7_counterexample :
    normalizeWeatherVA "曇りのち晴れ" = "sunny" ∧
    ¬ normalizeWeatherVA "曇りのち晴れ" = "cloudy" := by
  constructor
  · rfl
  · decide

/-- C7 amended: 曇りのち晴れ is mapped to "sunny" by the visitor-statistics
lookup table (its entry reads latter-half sunny; the neighbouring compound
entries 曇り時々晴れ and 曇りのち晴れ一時雨 do map to "cloudy"), while the
feature-encoding table has no entry for it at all, so there it falls back
to the default cloudy code 1. -/
theorem c7_weather_mapping :
    normalizeWeatherVA "曇りのち晴れ" = "sunny" ∧
    fe_weather_mapping.lookup "曇りのち晴れ" = none ∧
    encodeWeatherFE "曇りのち晴れ" = 1 ∧
    fe_weather_mapping.lookup "曇り" = some 1 ∧
    weather_mapping.lookup "曇り時々晴れ" = some "cloudy" ∧
    weather_mapping.lookup "曇りのち晴れ一時雨" = some "cloudy" := by
  refine ⟨rfl, ?_, rfl, rfl, rfl, rfl⟩
  decide

/-- C8: a single visitor-count field with no digit makes the whole
`load_fishing_data` call fail (the `.astype(int)` cast raises on the NaN
left by the extraction), aborting the entire historical query, even though
the same row set minus that one field loads fine — while the ML-side
per-row preprocessing absorbs exactly the same failure locally, keeping
both rows and nulling only the bad field. -/
theorem c8_single_bad_field_aborts_query :
    load_fishing_data [goodRawRow] = Except.ok [goodNormalized] ∧
    load_fishing_data [goodRawRow, badVisitorRow] =
      Except.error "Cannot convert non-finite values (NA or inf) to integer" ∧
    (preprocess_fishing_data [goodRawRow, badVisitorRow]).length = 2 ∧
    (preprocess_fishing_data [goodRawRow, badVisitorRow]).map
        (fun r => r.visitorsNum) = [some 174, none] := by
  refine ⟨?_, ?_, ?_, ?_⟩ <;> rfl

/-- C9: the historical query's total count and summary are computed over
the full filtered set before limiting — they are identical for any two
limits — and the returned page is the first `limit` records of the
date-descending sort. -/
theorem c9_limit_invariance :
    ∀ (db : List HRecord) (f : HFilters) (l1 l2 : ℕ),
      (get_historical_data db f l1).total_count = (get_historical_data db f l2).total_count ∧
      (get_historical_data db f l1).summary = (get_historical_data db f l2).summary ∧
      (get_historical_data db f l1).returned_count ≤ l1 ∧
      (get_historical_data db f l1).records =
        ((db.filter (matchesFilters f)).insertionSort
          (fun a b => hdateKey b.date ≤ hdateKey a.date)).take l1 ∧
      List.Pairwise (fun a b => hdateKey b.date ≤ hdateKey a.date)
        (get_historical_data db f l1).records := by
  intro db f l1 l2
  haveI : IsTotal HRecord (fun a b => hdateKey b.date ≤ hdateKey a.date) :=
    ⟨fun a b => le_total (hdateKey b.date) (hdateKey a.date)⟩
  haveI : IsTrans HRecord (fun a b => hdateKey b.date ≤ hdateKey a.date) :=
    ⟨fun _ _ _ h1 h2 => le_trans h2 h1⟩
  refine ⟨rfl, rfl, ?_, rfl, ?_⟩
  · simp only [get_historical_data, List.length_take]
    exact Nat.min_le_left _ _
  · exact (List.sorted_insertionSort _ _).sublist (List.take_sublist _ _)

/-- C10: `save_model` on a predictor that was never trained or loaded
raises before anything is written: the model directory is unchanged, no
artifact is created and no retention cleanup runs. -/
theorem c10_save_untrained :
    ∀ (s : PState) (dir : List PFile) (ts : String) (now : ℕ),
      s.is_trained = false →
      (save_model s dir ts now).1 = dir ∧
      ∃ msg, (save_model s dir ts now).2 = Except.error msg := by
  intro s dir ts now h
  unfold save_model
  rw [if_pos h]
  exact ⟨rfl, _, rfl⟩

/-- Witness for C10: saving a concrete untrained state leaves a concrete
one-file directory unchanged and yields an error. -/
theorem c10_save_untrained_witness :
    (save_model
      { model := fun _ => [], model_type := "xgboost", feature_columns := [],
        is_trained := false, training_history := "" }
      [pfileA] "t" 0).1 = [pfileA] ∧
    ∃ msg,
      (save_model
        { model := fun _ => [], model_type := "xgboost", feature_columns := [],
          is_trained := false, training_history := "" }
        [pfileA] "t" 0).2 = Except.error msg :=
  c10_save_untrained _ _ _ _ rfl

end Fishing
